import Mathlib

/-!
Shallow embedding of the `hyperware-elevenlabs-tts` client library
(`src/client.rs`, `src/types.rs`, `src/error.rs`) and verification of its
specification claims.

Modelling conventions:
* Rust `String` is Lean `String`; Rust `String::len()` is the UTF-8 byte
  count `String.utf8ByteSize`, and `String::is_empty()` is `String.isEmpty`.
* Rust `f32` is modelled by `F32`: a rational value, one of the two
  infinities, or NaN.  The only `f32` operations the code performs are the
  IEEE-754 comparisons `<` against the exactly representable constants
  `0.0` and `1.0`; the model's `F32.lt` implements IEEE `<` on this
  carrier (NaN compares false against everything), which is exact for
  these comparisons.
* External collaborators (JSON byte-encoding, URL parsing, the HTTP
  transport, JSON error-envelope decoding, lossy UTF-8 decoding) are kept
  abstract: they are parameters of the executor (`Env` plus an explicit
  transport outcome).  The JSON structure the library itself determines
  (which keys appear, with which values) is modelled concretely by a
  `Json` tree built exactly as the `serde` derive attributes in
  `src/types.rs` prescribe (`skip_serializing_if = "Option::is_none"`,
  field renames).
-/

/-! ## Definitions: data model, serialization, validation, executor,
builder, and the spec-side predicates used by the claim theorems. -/

/-- Model of Rust `f32` for the purposes of this library: a finite value
(an exact rational), positive or negative infinity, or NaN. -/
inductive F32 where
  | fin (q : ℚ)
  | inf
  | negInf
  | nan
deriving DecidableEq

/-- IEEE-754 `<` on the `F32` carrier: NaN is incomparable (all
comparisons false); `-∞ < x` for every non-NaN `x ≠ -∞`; `x < ∞` for
every finite `x`; finite values compare as rationals. -/
def F32.lt : F32 → F32 → Bool
  | .nan, _ => false
  | _, .nan => false
  | .negInf, .negInf => false
  | .negInf, _ => true
  | .fin _, .negInf => false
  | .fin a, .fin b => Rat.blt a b
  | .fin _, .inf => true
  | .inf, _ => false

/-- `src/client.rs` constant `MAX_INPUT_LENGTH`. -/
def MAX_INPUT_LENGTH : Nat := 5000

/-- `src/client.rs` constant `MIN_VOICE_SETTING` (`0.0f32`). -/
def MIN_VOICE_SETTING : F32 := .fin 0

/-- `src/client.rs` constant `MAX_VOICE_SETTING` (`1.0f32`). -/
def MAX_VOICE_SETTING : F32 := .fin 1

/-- `src/types.rs` `enum TtsModel`. -/
inductive TtsModel where
  | ElevenV3
  | ElevenMultilingualV2
  | ElevenFlashV25
  | ElevenTurboV25
deriving DecidableEq

/-- `TtsModel::as_str` from `src/types.rs`. -/
def TtsModel.as_str : TtsModel → String
  | .ElevenV3 => "eleven_v3"
  | .ElevenMultilingualV2 => "eleven_multilingual_v2"
  | .ElevenFlashV25 => "eleven_flash_v2_5"
  | .ElevenTurboV25 => "eleven_turbo_v2_5"

/-- `impl Default for TtsModel`. -/
def TtsModel.default : TtsModel := .ElevenMultilingualV2

/-- `src/types.rs` `enum Voice`. -/
inductive Voice where
  | Rachel | Drew | Clyde | Paul | Aria | Domi | Dave | Roger | Fin | Sarah
deriving DecidableEq

/-- `Voice::as_voice_id` from `src/types.rs`. -/
def Voice.as_voice_id : Voice → String
  | .Rachel => "21m00Tcm4TlvDq8ikWAM"
  | .Drew => "29vD33N1CtxCmqQRPOHJ"
  | .Clyde => "2EiwWnXFnvU5JabPnv8n"
  | .Paul => "5Q0t7uMcjvnagumLfvZi"
  | .Aria => "9BWtsMINqrJLrRacOk9x"
  | .Domi => "AZnzlk1XvdvUeBnXmlld"
  | .Dave => "CYw3kZ02Hs0563khs1Fj"
  | .Roger => "CwhRBWXzGAHq8TQ4Fs17"
  | .Fin => "D38z5RcWu1voky8WS1ja"
  | .Sarah => "EXAVITQu4vr4xnSDxMaL"

/-- `impl Default for Voice`. -/
def Voice.default : Voice := .Rachel

/-- `src/types.rs` `enum AudioFormat`. -/
inductive AudioFormat where
  | Mp3_22050_32
  | Mp3_44100_32
  | Mp3_44100_64
  | Mp3_44100_96
  | Mp3_44100_128
  | Mp3_44100_192
  | Pcm16000
  | Pcm22050
  | Pcm24000
  | Pcm44100
  | Ulaw8000
deriving DecidableEq

/-- `AudioFormat::as_str` from `src/types.rs` (also the serde rename of
each variant). -/
def AudioFormat.as_str : AudioFormat → String
  | .Mp3_22050_32 => "mp3_22050_32"
  | .Mp3_44100_32 => "mp3_44100_32"
  | .Mp3_44100_64 => "mp3_44100_64"
  | .Mp3_44100_96 => "mp3_44100_96"
  | .Mp3_44100_128 => "mp3_44100_128"
  | .Mp3_44100_192 => "mp3_44100_192"
  | .Pcm16000 => "pcm_16000"
  | .Pcm22050 => "pcm_22050"
  | .Pcm24000 => "pcm_24000"
  | .Pcm44100 => "pcm_44100"
  | .Ulaw8000 => "ulaw_8000"

/-- `impl Default for AudioFormat`. -/
def AudioFormat.default : AudioFormat := .Mp3_44100_128

/-- `src/types.rs` `struct VoiceSettings`. -/
structure VoiceSettings where
  stability : Option F32
  similarity_boost : Option F32
  style : Option F32
  use_speaker_boost : Option Bool
deriving DecidableEq

/-- `impl Default for VoiceSettings`. -/
def VoiceSettings.default : VoiceSettings :=
  { stability := none, similarity_boost := none, style := none,
    use_speaker_boost := none }

/-- `src/types.rs` `enum TextNormalization`. -/
inductive TextNormalization where
  | Auto | On | Off
deriving DecidableEq

/-- The serde wire name of each `TextNormalization` variant
(`rename_all = "lowercase"` in `src/types.rs`). -/
def TextNormalization.wireName : TextNormalization → String
  | .Auto => "auto"
  | .On => "on"
  | .Off => "off"

/-- `impl Default for TextNormalization`. -/
def TextNormalization.default : TextNormalization := .Auto

/-- `src/types.rs` `struct SpeechRequest`.  Rust `u32` seeds are modelled
as `Nat` (no arithmetic is ever performed on them). -/
structure SpeechRequest where
  text : String
  model : TtsModel
  voice : Voice
  voice_settings : Option VoiceSettings
  output_format : Option AudioFormat
  language_code : Option String
  seed : Option Nat
  previous_text : Option String
  next_text : Option String
  previous_request_ids : Option (List String)
  next_request_ids : Option (List String)
  apply_text_normalization : Option TextNormalization
  apply_language_text_normalization : Option Bool
deriving DecidableEq

/-- `impl Default for SpeechRequest`. -/
def SpeechRequest.default : SpeechRequest :=
  { text := ""
    model := TtsModel.default
    voice := Voice.default
    voice_settings := none
    output_format := none
    language_code := none
    seed := none
    previous_text := none
    next_text := none
    previous_request_ids := none
    next_request_ids := none
    apply_text_normalization := none
    apply_language_text_normalization := none }

/-- `src/types.rs` `struct SpeechResponse`. -/
structure SpeechResponse where
  audio_data : List UInt8
  format : AudioFormat
deriving DecidableEq

/-- `src/types.rs` `struct ApiErrorDetail`. -/
structure ApiErrorDetail where
  message : String
  error_type : Option String
  code : Option String
deriving DecidableEq

/-- `src/types.rs` `struct ApiErrorResponse`. -/
structure ApiErrorResponse where
  error : ApiErrorDetail
deriving DecidableEq

/-- The variants of `hyperware_process_lib::http::client::HttpClientError`
this library constructs or propagates.  `BadUrl` is built explicitly in
`src/client.rs`; every other transport failure is abstracted as `other`. -/
inductive HttpClientError where
  | BadUrl (url : String)
  | other (msg : String)
deriving DecidableEq

/-- `src/error.rs` `enum TtsError`. -/
inductive TtsError where
  | MissingInput
  | InputTooLong (length : Nat)
  | InvalidVoiceSettings (field : String) (value : F32)
  | MissingApiKey
  | ApiError (status : Nat) (message : String)
  | HttpClient (e : HttpClientError)
  | SerializationError (msg : String)
  | DeserializationError (msg : String)
  | InvalidSeed (seed : Nat)
deriving DecidableEq

/-- `src/client.rs` `struct SpeechClient`. -/
structure SpeechClient where
  api_key : String
  base_url : String
  timeout : Nat
deriving DecidableEq

/-- `SpeechClient::new` from `src/client.rs`. -/
def SpeechClient.new (api_key : String) : SpeechClient :=
  { api_key := api_key
    base_url := "https://api.elevenlabs.io"
    timeout := 60000 }

/-- `SpeechClient::with_base_url`. -/
def SpeechClient.with_base_url (c : SpeechClient) (base_url : String) :
    SpeechClient :=
  { c with base_url := base_url }

/-- `SpeechClient::with_timeout`. -/
def SpeechClient.with_timeout (c : SpeechClient) (timeout : Nat) :
    SpeechClient :=
  { c with timeout := timeout }

/-- JSON value tree, as much structure as `serde_json` serialization of
this library's types can produce.  `nat` carries `u32` payloads, `num`
carries `f32` payloads. -/
inductive Json where
  | null
  | str (s : String)
  | nat (n : Nat)
  | num (x : F32)
  | bool (b : Bool)
  | arr (elems : List Json)
  | obj (fields : List (String × Json))

/-- Whether a JSON value is the `null` literal. -/
def Json.isNull : Json → Bool
  | .null => true
  | _ => false

/-- One optional serde field: present with its key exactly when the value
is present (`skip_serializing_if = "Option::is_none"`). -/
def optField (key : String) : Option Json → List (String × Json)
  | some j => [(key, j)]
  | none => []

/-- serde serialization of `VoiceSettings` (`src/types.rs`): each of the
four fields is emitted under its own name exactly when it is `Some`. -/
def VoiceSettings.toJsonFields (s : VoiceSettings) : List (String × Json) :=
  optField "stability" (s.stability.map Json.num)
  ++ (optField "similarity_boost" (s.similarity_boost.map Json.num)
  ++ (optField "style" (s.style.map Json.num)
  ++ optField "use_speaker_boost" (s.use_speaker_boost.map Json.bool)))

/-- `src/types.rs` `struct SpeechRequestJson` (the wire form). -/
structure SpeechRequestJson where
  text : String
  model_id : String
  language_code : Option String
  voice_settings : Option VoiceSettings
  seed : Option Nat
  previous_text : Option String
  next_text : Option String
  previous_request_ids : Option (List String)
  next_request_ids : Option (List String)
  apply_text_normalization : Option TextNormalization
  apply_language_text_normalization : Option Bool

/-- `impl From<SpeechRequest> for SpeechRequestJson` (`src/types.rs`);
named `ofRequest` because `from` is a Lean keyword. -/
def SpeechRequestJson.ofRequest (req : SpeechRequest) : SpeechRequestJson :=
  { text := req.text
    model_id := req.model.as_str
    language_code := req.language_code
    voice_settings := req.voice_settings
    seed := req.seed
    previous_text := req.previous_text
    next_text := req.next_text
    previous_request_ids := req.previous_request_ids
    next_request_ids := req.next_request_ids
    apply_text_normalization := req.apply_text_normalization
    apply_language_text_normalization := req.apply_language_text_normalization }

/-- serde serialization of `SpeechRequestJson` (`src/types.rs`): `text`
and `model_id` always, every optional field exactly when `Some`, in
declaration order. -/
def SpeechRequestJson.toJsonFields (r : SpeechRequestJson) :
    List (String × Json) :=
  ("text", Json.str r.text) :: ("model_id", Json.str r.model_id) ::
  (optField "language_code" (r.language_code.map Json.str)
  ++ (optField "voice_settings"
      (r.voice_settings.map fun s => Json.obj s.toJsonFields)
  ++ (optField "seed" (r.seed.map Json.nat)
  ++ (optField "previous_text" (r.previous_text.map Json.str)
  ++ (optField "next_text" (r.next_text.map Json.str)
  ++ (optField "previous_request_ids"
      (r.previous_request_ids.map fun ids => Json.arr (ids.map Json.str))
  ++ (optField "next_request_ids"
      (r.next_request_ids.map fun ids => Json.arr (ids.map Json.str))
  ++ (optField "apply_text_normalization"
      (r.apply_text_normalization.map fun m => Json.str m.wireName)
  ++ optField "apply_language_text_normalization"
      (r.apply_language_text_normalization.map Json.bool)))))))))

/-- The whole wire JSON document for a request. -/
def SpeechRequestJson.toJson (r : SpeechRequestJson) : Json :=
  .obj r.toJsonFields

/-- An HTTP response as seen by `send_speech_request`: numeric status and
raw body bytes. -/
structure HttpResponse where
  status : Nat
  body : List UInt8
deriving DecidableEq

/-- The abstract external collaborators of `send_speech_request`:
`serde_json::to_vec` (byte encoding of the JSON tree, fallible),
`url::Url::parse` (modelled by its success/failure with error message),
`serde_json::from_slice::<ApiErrorResponse>` and `String::from_utf8_lossy`
for response classification. -/
structure Env where
  encodeJson : Json → Except String (List UInt8)
  urlParse : String → Except String Unit
  decodeApiError : List UInt8 → Option ApiErrorResponse
  utf8Lossy : List UInt8 → String

/-- The URL string built by the `format!` in `SpeechClient::send_speech_request`
(`src/client.rs` lines 106-111): base URL, fixed path, voice id, and the
output format (the request's, or the default) as query parameter. -/
def requestUrl (client : SpeechClient) (request : SpeechRequest) : String :=
  client.base_url ++ "/v1/text-to-speech/" ++ request.voice.as_voice_id
    ++ "?output_format="
    ++ (request.output_format.getD AudioFormat.default).as_str

/-- The API-key check (`src/client.rs` lines 85-87). -/
def validateApiKey (client : SpeechClient) : Option TtsError :=
  if client.api_key.isEmpty then some .MissingApiKey else none

/-- The `style` check (`src/client.rs` lines 75-82), then the API-key
check. -/
def validateAfterSimilarity (client : SpeechClient) (settings : VoiceSettings) :
    Option TtsError :=
  match settings.style with
  | some style =>
    if style.lt MIN_VOICE_SETTING || MAX_VOICE_SETTING.lt style then
      some (.InvalidVoiceSettings "style" style)
    else validateApiKey client
  | none => validateApiKey client

/-- The voice-settings checks after `stability` (`src/client.rs` lines
67-82), then the API-key check. -/
def validateAfterStability (client : SpeechClient) (settings : VoiceSettings) :
    Option TtsError :=
  match settings.similarity_boost with
  | some similarity_boost =>
    if similarity_boost.lt MIN_VOICE_SETTING
        || MAX_VOICE_SETTING.lt similarity_boost then
      some (.InvalidVoiceSettings "similarity_boost" similarity_boost)
    else validateAfterSimilarity client settings
  | none => validateAfterSimilarity client settings

/-- The validation prefix of `SpeechClient::send_speech_request`
(`src/client.rs` lines 50-87), returning the first error of the
early-return chain: empty text, overlong text, the voice-settings block,
then the missing API key. -/
def validate (client : SpeechClient) (request : SpeechRequest) :
    Option TtsError :=
  if request.text.isEmpty then
    some .MissingInput
  else if MAX_INPUT_LENGTH < request.text.utf8ByteSize then
    some (.InputTooLong request.text.utf8ByteSize)
  else
    match request.voice_settings with
    | some settings =>
      match settings.stability with
      | some stability =>
        if stability.lt MIN_VOICE_SETTING || MAX_VOICE_SETTING.lt stability then
          some (.InvalidVoiceSettings "stability" stability)
        else validateAfterStability client settings
      | none => validateAfterStability client settings
    | none => validateApiKey client

/-- Response classification in `SpeechClient::send_speech_request`
(`src/client.rs` lines 128-150).  The success range test is
`http::StatusCode::is_success` (`200..=299`): on success the raw body is
wrapped as audio tagged with the request's output format (default if
unset); otherwise an `ApiError` carries the status and either the decoded
error envelope's message or the lossy-UTF-8 body. -/
def classifyResponse (env : Env) (request : SpeechRequest)
    (response : HttpResponse) : Except TtsError SpeechResponse :=
  if 200 ≤ response.status ∧ response.status < 300 then
    .ok { audio_data := response.body
          format := request.output_format.getD AudioFormat.default }
  else
    match env.decodeApiError response.body with
    | some error_response =>
      .error (.ApiError response.status error_response.error.message)
    | none =>
      .error (.ApiError response.status (env.utf8Lossy response.body))

/-- `SpeechClient::send_speech_request` (`src/client.rs` lines 46-151):
validation, serialization, URL construction, the transport call (whose
outcome is the explicit `transport` argument), and response
classification. -/
def send_speech_request (env : Env)
    (transport : Except HttpClientError HttpResponse)
    (client : SpeechClient) (request : SpeechRequest) :
    Except TtsError SpeechResponse :=
  match validate client request with
  | some e => .error e
  | none =>
    match env.encodeJson (SpeechRequestJson.ofRequest request).toJson with
    | .error e => .error (.SerializationError e)
    | .ok _body =>
      match env.urlParse (requestUrl client request) with
      | .error e => .error (.HttpClient (.BadUrl e))
      | .ok _ =>
        match transport with
        | .error e => .error (.HttpClient e)
        | .ok response => classifyResponse env request response

/-- `src/client.rs` `struct SpeechRequestBuilder` (the borrowed client is
carried by value in the model). -/
structure SpeechRequestBuilder where
  client : SpeechClient
  request : SpeechRequest

/-- `SpeechClient::synthesize`. -/
def SpeechClient.synthesize (c : SpeechClient) : SpeechRequestBuilder :=
  { client := c, request := SpeechRequest.default }

/-- `SpeechRequestBuilder::text`. -/
def SpeechRequestBuilder.text (b : SpeechRequestBuilder) (text : String) :
    SpeechRequestBuilder :=
  { b with request := { b.request with text := text } }

/-- `SpeechRequestBuilder::input` (delegates to `text`). -/
def SpeechRequestBuilder.input (b : SpeechRequestBuilder) (text : String) :
    SpeechRequestBuilder :=
  b.text text

/-- `SpeechRequestBuilder::model`. -/
def SpeechRequestBuilder.model (b : SpeechRequestBuilder) (model : TtsModel) :
    SpeechRequestBuilder :=
  { b with request := { b.request with model := model } }

/-- `SpeechRequestBuilder::voice`. -/
def SpeechRequestBuilder.voice (b : SpeechRequestBuilder) (voice : Voice) :
    SpeechRequestBuilder :=
  { b with request := { b.request with voice := voice } }

/-- `SpeechRequestBuilder::voice_settings`. -/
def SpeechRequestBuilder.voice_settings (b : SpeechRequestBuilder)
    (settings : VoiceSettings) : SpeechRequestBuilder :=
  { b with request := { b.request with voice_settings := some settings } }

/-- `SpeechRequestBuilder::stability`: read the current settings (or the
default), set only `stability`, write the whole value back. -/
def SpeechRequestBuilder.stability (b : SpeechRequestBuilder) (stability : F32) :
    SpeechRequestBuilder :=
  let settings := b.request.voice_settings.getD VoiceSettings.default
  let settings := { settings with stability := some stability }
  { b with request := { b.request with voice_settings := some settings } }

/-- `SpeechRequestBuilder::similarity_boost`. -/
def SpeechRequestBuilder.similarity_boost (b : SpeechRequestBuilder)
    (similarity_boost : F32) : SpeechRequestBuilder :=
  let settings := b.request.voice_settings.getD VoiceSettings.default
  let settings := { settings with similarity_boost := some similarity_boost }
  { b with request := { b.request with voice_settings := some settings } }

/-- `SpeechRequestBuilder::style`. -/
def SpeechRequestBuilder.style (b : SpeechRequestBuilder) (style : F32) :
    SpeechRequestBuilder :=
  let settings := b.request.voice_settings.getD VoiceSettings.default
  let settings := { settings with style := some style }
  { b with request := { b.request with voice_settings := some settings } }

/-- `SpeechRequestBuilder::use_speaker_boost`. -/
def SpeechRequestBuilder.use_speaker_boost (b : SpeechRequestBuilder)
    (use_speaker_boost : Bool) : SpeechRequestBuilder :=
  let settings := b.request.voice_settings.getD VoiceSettings.default
  let settings := { settings with use_speaker_boost := some use_speaker_boost }
  { b with request := { b.request with voice_settings := some settings } }

/-- `SpeechRequestBuilder::output_format`. -/
def SpeechRequestBuilder.output_format (b : SpeechRequestBuilder)
    (format : AudioFormat) : SpeechRequestBuilder :=
  { b with request := { b.request with output_format := some format } }

/-- `SpeechRequestBuilder::response_format` (delegates to
`output_format`). -/
def SpeechRequestBuilder.response_format (b : SpeechRequestBuilder)
    (format : AudioFormat) : SpeechRequestBuilder :=
  b.output_format format

/-- `SpeechRequestBuilder::language_code`. -/
def SpeechRequestBuilder.language_code (b : SpeechRequestBuilder)
    (code : String) : SpeechRequestBuilder :=
  { b with request := { b.request with language_code := some code } }

/-- `SpeechRequestBuilder::seed`. -/
def SpeechRequestBuilder.seed (b : SpeechRequestBuilder) (seed : Nat) :
    SpeechRequestBuilder :=
  { b with request := { b.request with seed := some seed } }

/-- `SpeechRequestBuilder::previous_text`. -/
def SpeechRequestBuilder.previous_text (b : SpeechRequestBuilder)
    (text : String) : SpeechRequestBuilder :=
  { b with request := { b.request with previous_text := some text } }

/-- `SpeechRequestBuilder::next_text`. -/
def SpeechRequestBuilder.next_text (b : SpeechRequestBuilder)
    (text : String) : SpeechRequestBuilder :=
  { b with request := { b.request with next_text := some text } }

/-- `SpeechRequestBuilder::previous_request_ids`. -/
def SpeechRequestBuilder.previous_request_ids (b : SpeechRequestBuilder)
    (ids : List String) : SpeechRequestBuilder :=
  { b with request := { b.request with previous_request_ids := some ids } }

/-- `SpeechRequestBuilder::next_request_ids`. -/
def SpeechRequestBuilder.next_request_ids (b : SpeechRequestBuilder)
    (ids : List String) : SpeechRequestBuilder :=
  { b with request := { b.request with next_request_ids := some ids } }

/-- `SpeechRequestBuilder::apply_text_normalization`. -/
def SpeechRequestBuilder.apply_text_normalization (b : SpeechRequestBuilder)
    (mode : TextNormalization) : SpeechRequestBuilder :=
  { b with request := { b.request with apply_text_normalization := some mode } }

/-- `SpeechRequestBuilder::apply_language_text_normalization`. -/
def SpeechRequestBuilder.apply_language_text_normalization
    (b : SpeechRequestBuilder) (enabled : Bool) : SpeechRequestBuilder :=
  { b with request :=
      { b.request with apply_language_text_normalization := some enabled } }

/-- `SpeechRequestBuilder::execute` (consumes the builder and hands its
request to `send_speech_request`). -/
def SpeechRequestBuilder.execute (env : Env)
    (transport : Except HttpClientError HttpResponse)
    (b : SpeechRequestBuilder) : Except TtsError SpeechResponse :=
  send_speech_request env transport b.client b.request

/-- Trivial instantiation of the external collaborators, used to evaluate
the executor on concrete inputs. -/
def Env.trivial : Env :=
  { encodeJson := fun _ => .ok []
    urlParse := fun _ => .ok ()
    decodeApiError := fun _ => none
    utf8Lossy := fun _ => "" }

/-- Whether an executor outcome is the `InputTooLong` error. -/
def errIsInputTooLong : Except TtsError SpeechResponse → Bool
  | .error (.InputTooLong _) => true
  | _ => false

/-- A 2501-character text (`é` repeated) whose UTF-8 encoding takes 5002
bytes: character count and Rust `String::len()` diverge on it. -/
def longMultibyteText : String := String.mk (List.replicate 2501 'é')

/-- A 5001-character ASCII text (5001 UTF-8 bytes). -/
def longAsciiText : String := String.mk (List.replicate 5001 'a')

/-- First hit of an ordered list of short-circuiting checks. -/
def firstErr : List (Option TtsError) → Option TtsError
  | [] => none
  | some e :: _ => some e
  | none :: rest => firstErr rest

/-- Check 1 of the spec's validation algorithm: text non-empty. -/
def checkTextNonEmpty (request : SpeechRequest) : Option TtsError :=
  if request.text.isEmpty then some .MissingInput else none

/-- Check 2: text length within the limit. -/
def checkTextLength (request : SpeechRequest) : Option TtsError :=
  if MAX_INPUT_LENGTH < request.text.utf8ByteSize then
    some (.InputTooLong request.text.utf8ByteSize)
  else none

/-- Check 3a: `stability` in range, when voice settings carry one. -/
def checkStability (request : SpeechRequest) : Option TtsError :=
  match request.voice_settings with
  | some settings =>
    match settings.stability with
    | some v =>
      if v.lt MIN_VOICE_SETTING || MAX_VOICE_SETTING.lt v then
        some (.InvalidVoiceSettings "stability" v)
      else none
    | none => none
  | none => none

/-- Check 3b: `similarity_boost` in range. -/
def checkSimilarityBoost (request : SpeechRequest) : Option TtsError :=
  match request.voice_settings with
  | some settings =>
    match settings.similarity_boost with
    | some v =>
      if v.lt MIN_VOICE_SETTING || MAX_VOICE_SETTING.lt v then
        some (.InvalidVoiceSettings "similarity_boost" v)
      else none
    | none => none
  | none => none

/-- Check 3c: `style` in range. -/
def checkStyle (request : SpeechRequest) : Option TtsError :=
  match request.voice_settings with
  | some settings =>
    match settings.style with
    | some v =>
      if v.lt MIN_VOICE_SETTING || MAX_VOICE_SETTING.lt v then
        some (.InvalidVoiceSettings "style" v)
      else none
    | none => none
  | none => none

/-- Check 4: API key non-empty. -/
def checkApiKey (client : SpeechClient) : Option TtsError :=
  if client.api_key.isEmpty then some .MissingApiKey else none

/-- Membership of an `f32` in the closed interval `[0, 1]`: the value is
finite and its rational value lies between 0 and 1 (NaN and the
infinities are not in the interval). -/
def F32.inRange01 : F32 → Bool
  | .fin q => !Rat.blt q 0 && !Rat.blt 1 q
  | _ => false

/-- An optional voice-settings field that does not trip its range check:
absent, NaN, or in `[0, 1]`. -/
def settingOk (o : Option F32) : Prop :=
  ∀ w, o = some w → w = F32.nan ∨ w.inRange01 = true

/-- No entry of an association list carries the JSON `null` value. -/
def noNullValues : List (String × Json) → Bool
  | [] => true
  | kv :: rest => !kv.2.isNull && noNullValues rest

/-- Whether an error is one of the two declared-but-unused variants. -/
def TtsError.isPhantom : TtsError → Bool
  | .InvalidSeed _ => true
  | .DeserializationError _ => true
  | _ => false

/-- Whether an executor outcome carries a phantom error variant. -/
def resultPhantom : Except TtsError SpeechResponse → Bool
  | .error e => e.isPhantom
  | .ok _ => false

/-- Whether a validation outcome is `InvalidVoiceSettings` blaming the
given field. -/
def blamesField : Option TtsError → String → Bool
  | some (.InvalidVoiceSettings f _), g => f == g
  | _, _ => false

/-! ## Theorems: helper lemmas and the claim theorems C1-C10. -/

/-- UTF-8 byte size of an `n`-fold repetition of one character. -/
theorem utf8ByteSize_replicate (n : Nat) (c : Char) :
    (String.mk (List.replicate n c)).utf8ByteSize = n * c.utf8Size := by
  induction n with
  | zero => simp [String.utf8ByteSize, String.utf8ByteSize.go]
  | succ n ih =>
    have hstep : (String.mk (List.replicate (n + 1) c)).utf8ByteSize
        = (String.mk (List.replicate n c)).utf8ByteSize + c.utf8Size := rfl
    rw [hstep, ih]
    ring

/-- A string with a positive UTF-8 byte count is not empty. -/
theorem isEmpty_false_of_utf8ByteSize_pos (s : String)
    (h : s.utf8ByteSize ≠ 0) : s.isEmpty = false := by
  cases hb : s.isEmpty
  · rfl
  · have hs : s = "" := (String.isEmpty_iff s).mp hb
    rw [hs] at h
    exact absurd rfl h

/-- Shape of the API-key check. -/
theorem validateApiKey_shape (client : SpeechClient) :
    validateApiKey client = none ∨
    validateApiKey client = some .MissingApiKey := by
  unfold validateApiKey
  split
  · exact Or.inr rfl
  · exact Or.inl rfl

/-- Shape of the `style`-and-later checks. -/
theorem validateAfterSimilarity_shape (client : SpeechClient)
    (settings : VoiceSettings) :
    validateAfterSimilarity client settings = validateApiKey client ∨
    (∃ v, settings.style = some v ∧
      validateAfterSimilarity client settings
        = some (.InvalidVoiceSettings "style" v)) := by
  unfold validateAfterSimilarity
  rcases hsty : settings.style with _ | v
  · exact Or.inl rfl
  · by_cases hb : (v.lt MIN_VOICE_SETTING = true ∨ MAX_VOICE_SETTING.lt v = true)
    · exact Or.inr ⟨v, rfl, by simp [hb]⟩
    · exact Or.inl (by simp [hb])

/-- Shape of the `similarity_boost`-and-later checks. -/
theorem validateAfterStability_shape (client : SpeechClient)
    (settings : VoiceSettings) :
    validateAfterStability client settings
      = validateAfterSimilarity client settings ∨
    (∃ v, settings.similarity_boost = some v ∧
      validateAfterStability client settings
        = some (.InvalidVoiceSettings "similarity_boost" v)) := by
  unfold validateAfterStability
  rcases hsim : settings.similarity_boost with _ | v
  · exact Or.inl rfl
  · by_cases hb : (v.lt MIN_VOICE_SETTING = true ∨ MAX_VOICE_SETTING.lt v = true)
    · exact Or.inr ⟨v, rfl, by simp [hb]⟩
    · exact Or.inl (by simp [hb])

/-- Every outcome of `validate`, by exhaustive branch analysis. -/
theorem validate_shape (client : SpeechClient) (request : SpeechRequest) :
    validate client request = none ∨
    validate client request = some .MissingInput ∨
    (validate client request = some (.InputTooLong request.text.utf8ByteSize) ∧
      MAX_INPUT_LENGTH < request.text.utf8ByteSize) ∨
    (∃ v, validate client request = some (.InvalidVoiceSettings "stability" v)) ∨
    (∃ v, validate client request
        = some (.InvalidVoiceSettings "similarity_boost" v)) ∨
    (∃ v, validate client request = some (.InvalidVoiceSettings "style" v)) ∨
    validate client request = some .MissingApiKey := by
  unfold validate
  cases hempty : request.text.isEmpty
  · by_cases hlen : MAX_INPUT_LENGTH < request.text.utf8ByteSize
    · exact Or.inr (Or.inr (Or.inl ⟨by simp [hlen], hlen⟩))
    · have htail :
          ∀ o : Option TtsError,
            (o = validateApiKey client ∨
             (∃ s, request.voice_settings = some s ∧
                (o = validateAfterStability client s ∨
                 (∃ v, o = some (.InvalidVoiceSettings "stability" v))))) →
            o = none ∨ o = some .MissingInput ∨
            (o = some (.InputTooLong request.text.utf8ByteSize) ∧
              MAX_INPUT_LENGTH < request.text.utf8ByteSize) ∨
            (∃ v, o = some (.InvalidVoiceSettings "stability" v)) ∨
            (∃ v, o = some (.InvalidVoiceSettings "similarity_boost" v)) ∨
            (∃ v, o = some (.InvalidVoiceSettings "style" v)) ∨
            o = some .MissingApiKey := by
        intro o ho
        rcases ho with ho | ⟨s, _, ho | ⟨v, ho⟩⟩
        · rcases validateApiKey_shape client with hk | hk
          · exact Or.inl (ho.trans hk)
          · exact Or.inr <| Or.inr <| Or.inr <| Or.inr <| Or.inr <| Or.inr
              (ho.trans hk)
        · rcases validateAfterStability_shape client s with hs | ⟨v, _, hs⟩
          · rcases validateAfterSimilarity_shape client s with hy | ⟨v, _, hy⟩
            · rcases validateApiKey_shape client with hk | hk
              · exact Or.inl (((ho.trans hs).trans hy).trans hk)
              · exact Or.inr <| Or.inr <| Or.inr <| Or.inr <| Or.inr <| Or.inr
                  (((ho.trans hs).trans hy).trans hk)
            · exact Or.inr <| Or.inr <| Or.inr <| Or.inr <| Or.inr <| Or.inl
                ⟨v, (ho.trans hs).trans hy⟩
          · exact Or.inr <| Or.inr <| Or.inr <| Or.inr <| Or.inl
              ⟨v, ho.trans hs⟩
        · exact Or.inr <| Or.inr <| Or.inr <| Or.inl ⟨v, ho⟩
      refine htail _ ?_
      rcases hvs : request.voice_settings with _ | s
      · exact Or.inl (by simp [hlen])
      · refine Or.inr ⟨s, rfl, ?_⟩
        rcases hst : s.stability with _ | v
        · exact Or.inl (by simp [hlen, hst])
        · by_cases hb :
              (v.lt MIN_VOICE_SETTING = true ∨ MAX_VOICE_SETTING.lt v = true)
          · exact Or.inr ⟨v, by simp [hlen, hst, hb]⟩
          · exact Or.inl (by simp [hlen, hst, hb])
  · exact Or.inr (Or.inl (by simp))

/-- A failing validation is returned verbatim by the executor. -/
theorem send_eq_of_validate_some (env : Env)
    (t : Except HttpClientError HttpResponse) (client : SpeechClient)
    (request : SpeechRequest) (e : TtsError)
    (h : validate client request = some e) :
    send_speech_request env t client request = .error e := by
  unfold send_speech_request
  rw [h]

/-- Every outcome of `send_speech_request`: a validation error verbatim,
or (validation passed) a serialization error, a transport/URL error, or
the classified response. -/
theorem send_shape (env : Env) (t : Except HttpClientError HttpResponse)
    (client : SpeechClient) (request : SpeechRequest) :
    (∃ e, validate client request = some e ∧
        send_speech_request env t client request = .error e) ∨
    (validate client request = none ∧
      ((∃ m, send_speech_request env t client request
          = .error (.SerializationError m)) ∨
       (∃ u, send_speech_request env t client request
          = .error (.HttpClient u)) ∨
       (∃ response, t = .ok response ∧
          send_speech_request env t client request
            = classifyResponse env request response))) := by
  cases hv : validate client request with
  | some e => exact Or.inl ⟨e, rfl, send_eq_of_validate_some env t client request e hv⟩
  | none =>
    refine Or.inr ⟨rfl, ?_⟩
    have hsend :
        send_speech_request env t client request
          = match env.encodeJson (SpeechRequestJson.ofRequest request).toJson with
            | .error e => .error (.SerializationError e)
            | .ok _body =>
              match env.urlParse (requestUrl client request) with
              | .error e => .error (.HttpClient (.BadUrl e))
              | .ok _ =>
                match t with
                | .error e => .error (.HttpClient e)
                | .ok response => classifyResponse env request response := by
      unfold send_speech_request
      rw [hv]
    cases henc : env.encodeJson (SpeechRequestJson.ofRequest request).toJson with
    | error m => exact Or.inl ⟨m, by rw [hsend, henc]⟩
    | ok body =>
      cases hurl : env.urlParse (requestUrl client request) with
      | error m =>
        exact Or.inr (Or.inl ⟨.BadUrl m, by rw [hsend, henc, hurl]⟩)
      | ok u =>
        cases t with
        | error e => exact Or.inr (Or.inl ⟨e, by rw [hsend, henc, hurl]⟩)
        | ok response =>
          exact Or.inr (Or.inr ⟨response, rfl, by rw [hsend, henc, hurl]⟩)

/-- `errIsInputTooLong` is false on every classified response. -/
theorem errIsInputTooLong_classify (env : Env) (request : SpeechRequest)
    (response : HttpResponse) :
    errIsInputTooLong (classifyResponse env request response) = false := by
  unfold classifyResponse
  split
  · rfl
  · cases env.decodeApiError response.body <;> rfl

/-- C1, counterexample: `longMultibyteText` is non-empty and has 2501
characters (≤ 5000), yet execution fails with `InputTooLong 5002` — the
code limits the UTF-8 byte length (`String::len`), not the character
count, and reports the byte length. -/
theorem C1_counterexample :
    longMultibyteText.isEmpty = false ∧
    longMultibyteText.length = 2501 ∧
    send_speech_request Env.trivial (.ok { status := 200, body := [] })
        (SpeechClient.new "key")
        { SpeechRequest.default with text := longMultibyteText }
      = .error (.InputTooLong 5002) := by
  have hsize : longMultibyteText.utf8ByteSize = 5002 := by
    rw [longMultibyteText, utf8ByteSize_replicate]
    decide
  have hempty : longMultibyteText.isEmpty = false :=
    isEmpty_false_of_utf8ByteSize_pos _ (by rw [hsize]; omega)
  refine ⟨hempty, ?_, ?_⟩
  · have h : longMultibyteText.length = (List.replicate 2501 'é').length := rfl
    rw [h, List.length_replicate]
  · apply send_eq_of_validate_some
    unfold validate
    have htext :
        ({ SpeechRequest.default with text := longMultibyteText } :
          SpeechRequest).text = longMultibyteText := rfl
    rw [htext, hempty, hsize]
    simp [MAX_INPUT_LENGTH]

/-- C1 (amended): for every request whose text is longer than 5000 UTF-8
bytes, execution fails with `InputTooLong` carrying the exact byte count,
independently of the transport; for every request whose text is non-empty
and at most 5000 bytes, the length check passes (the outcome is never
`InputTooLong`). -/
theorem C1_byte_length (env : Env) (t : Except HttpClientError HttpResponse)
    (client : SpeechClient) (request : SpeechRequest) :
    (MAX_INPUT_LENGTH < request.text.utf8ByteSize →
      send_speech_request env t client request
        = .error (.InputTooLong request.text.utf8ByteSize)) ∧
    (request.text.isEmpty = false →
      request.text.utf8ByteSize ≤ MAX_INPUT_LENGTH →
      errIsInputTooLong (send_speech_request env t client request) = false) := by
  constructor
  · intro h
    have hpos : request.text.utf8ByteSize ≠ 0 := by
      unfold MAX_INPUT_LENGTH at h
      omega
    have hempty : request.text.isEmpty = false :=
      isEmpty_false_of_utf8ByteSize_pos _ hpos
    apply send_eq_of_validate_some
    unfold validate
    rw [hempty]
    simp [h]
  · intro hempty hle
    rcases send_shape env t client request with ⟨e, hv, hs⟩ | ⟨hv, hrest⟩
    · rcases validate_shape client request with
        h0 | h0 | ⟨h0, hlen⟩ | ⟨v, h0⟩ | ⟨v, h0⟩ | ⟨v, h0⟩ | h0
      · rw [h0] at hv
        cases hv
      · rw [h0] at hv
        cases hv
        rw [hs]
        rfl
      · exact absurd hlen (by omega)
      · rw [h0] at hv
        cases hv
        rw [hs]
        rfl
      · rw [h0] at hv
        cases hv
        rw [hs]
        rfl
      · rw [h0] at hv
        cases hv
        rw [hs]
        rfl
      · rw [h0] at hv
        cases hv
        rw [hs]
        rfl
    · rcases hrest with ⟨m, hs⟩ | ⟨u, hs⟩ | ⟨response, ht, hs⟩ <;> rw [hs]
      · rfl
      · rfl
      · exact errIsInputTooLong_classify env request response

/-- Witness for `C1_byte_length`: 5001 ASCII characters trip the check
with the exact byte count. -/
theorem C1_byte_length_witness :
    send_speech_request Env.trivial (.ok { status := 200, body := [] })
        (SpeechClient.new "key")
        { SpeechRequest.default with text := longAsciiText }
      = .error (.InputTooLong 5001) := by
  have hsize : longAsciiText.utf8ByteSize = 5001 := by
    rw [longAsciiText, utf8ByteSize_replicate]
    decide
  have htext :
      ({ SpeechRequest.default with text := longAsciiText } :
        SpeechRequest).text = longAsciiText := rfl
  have h := (C1_byte_length Env.trivial (.ok { status := 200, body := [] })
      (SpeechClient.new "key")
      { SpeechRequest.default with text := longAsciiText }).1
    (by rw [htext, hsize]; decide)
  rw [htext, hsize] at h
  exact h

set_option maxHeartbeats 1600000 in
/-- C2: validation runs exactly the ordered, short-circuiting sequence
text-non-empty, text-length, stability, similarity_boost, style, API key
(the returned error is the first failing check's), and when any check
fails the executor returns that error with no dependence on the
transport outcome. -/
theorem C2_validation_order (env : Env)
    (t : Except HttpClientError HttpResponse) (client : SpeechClient)
    (r : SpeechRequest) :
    validate client r
      = firstErr [checkTextNonEmpty r, checkTextLength r, checkStability r,
          checkSimilarityBoost r, checkStyle r, checkApiKey client] ∧
    (∀ e, validate client r = some e →
      send_speech_request env t client r = .error e) := by
  refine ⟨?_, fun e hv => send_eq_of_validate_some env t client r e hv⟩
  unfold validate checkTextNonEmpty checkTextLength checkStability
    checkSimilarityBoost checkStyle checkApiKey validateAfterStability
    validateAfterSimilarity validateApiKey
  rcases hvs : r.voice_settings with _ | ⟨st, sim, sty, usb⟩
  · split_ifs <;> simp [firstErr]
  · rcases st with _ | v₁ <;> rcases sim with _ | v₂ <;>
      rcases sty with _ | v₃ <;> simp only [firstErr] <;>
      split_ifs <;> simp [firstErr]

/-- Witness for `C2_validation_order`: an empty text is rejected with
`MissingInput` through the executor. -/
theorem C2_validation_order_witness :
    send_speech_request Env.trivial (.ok { status := 200, body := [] })
        (SpeechClient.new "key") SpeechRequest.default
      = .error .MissingInput :=
  (C2_validation_order Env.trivial (.ok { status := 200, body := [] })
      (SpeechClient.new "key") SpeechRequest.default).2
    .MissingInput (by decide)

/-- `inRange01` on a finite value is exactly membership in `[0, 1]` in
the rational order. -/
theorem inRange01_fin_iff (q : ℚ) :
    (F32.fin q).inRange01 = true ↔ (0 ≤ q ∧ q ≤ 1) := by
  show (!Rat.blt q 0 && !Rat.blt 1 q) = true ↔ _
  rw [Bool.and_eq_true, Bool.not_eq_true', Bool.not_eq_true']
  exact Iff.rfl

/-- For non-NaN values the code's rejection condition
(`v < 0.0 || v > 1.0` in IEEE comparisons) is exactly non-membership in
`[0, 1]`. -/
theorem lt_bounds_eq_not_inRange01 (v : F32) (hnan : v ≠ .nan) :
    (v.lt MIN_VOICE_SETTING || MAX_VOICE_SETTING.lt v) = !v.inRange01 := by
  cases v with
  | nan => exact absurd rfl hnan
  | inf => rfl
  | negInf => rfl
  | fin q =>
    show (Rat.blt q 0 || Rat.blt 1 q) = !(!Rat.blt q 0 && !Rat.blt 1 q)
    cases Rat.blt q 0 <;> cases Rat.blt 1 q <;> rfl

/-- A field value that is NaN or in range never trips the rejection
condition. -/
theorem cond_false_of_ok (w : F32) (h : w = .nan ∨ w.inRange01 = true) :
    (w.lt MIN_VOICE_SETTING || MAX_VOICE_SETTING.lt w) = false := by
  rcases h with h | h
  · subst h
    rfl
  · have hnan : w ≠ .nan := by
      intro he
      subst he
      simp [F32.inRange01] at h
    rw [lt_bounds_eq_not_inRange01 w hnan, h]
    rfl

/-- C3: a present numeric voice-settings field whose (non-NaN) value
lies outside `[0, 1]` makes execution fail with `InvalidVoiceSettings`
naming that field and value (provided the checks ordered before it pass);
in-range values — `0.0` and `1.0` included — pass the block, and
`use_speaker_boost` is never range-checked (the settings value `s` is
arbitrary in its `use_speaker_boost` field throughout). -/
theorem C3_voice_settings_range (env : Env)
    (t : Except HttpClientError HttpResponse) (client : SpeechClient)
    (request : SpeechRequest) (s : VoiceSettings)
    (hvs : request.voice_settings = some s)
    (hempty : request.text.isEmpty = false)
    (hlen : request.text.utf8ByteSize ≤ MAX_INPUT_LENGTH) :
    (∀ v, s.stability = some v → v ≠ .nan → v.inRange01 = false →
      send_speech_request env t client request
        = .error (.InvalidVoiceSettings "stability" v)) ∧
    (∀ v, s.similarity_boost = some v → v ≠ .nan → v.inRange01 = false →
      settingOk s.stability →
      send_speech_request env t client request
        = .error (.InvalidVoiceSettings "similarity_boost" v)) ∧
    (∀ v, s.style = some v → v ≠ .nan → v.inRange01 = false →
      settingOk s.stability → settingOk s.similarity_boost →
      send_speech_request env t client request
        = .error (.InvalidVoiceSettings "style" v)) ∧
    (settingOk s.stability → settingOk s.similarity_boost →
      settingOk s.style →
      validate client request = validateApiKey client) := by
  have hlen' : ¬ MAX_INPUT_LENGTH < request.text.utf8ByteSize := by omega
  refine ⟨?_, ?_, ?_, ?_⟩
  · intro v hv hnan hr
    apply send_eq_of_validate_some
    unfold validate
    simp [hempty, hlen', hvs, hv, lt_bounds_eq_not_inRange01 v hnan, hr]
  · intro v hv hnan hr hok₁
    apply send_eq_of_validate_some
    unfold validate validateAfterStability
    rcases hst : s.stability with _ | w
    · simp [hempty, hlen', hvs, hst, hv,
        lt_bounds_eq_not_inRange01 v hnan, hr]
    · have hcw := cond_false_of_ok w (hok₁ w hst)
      simp [hempty, hlen', hvs, hst, hcw, hv,
        lt_bounds_eq_not_inRange01 v hnan, hr]
  · intro v hv hnan hr hok₁ hok₂
    apply send_eq_of_validate_some
    unfold validate validateAfterStability validateAfterSimilarity
    rcases hst : s.stability with _ | w₁ <;>
      rcases hsim : s.similarity_boost with _ | w₂
    · simp [hempty, hlen', hvs, hst, hsim, hv,
        lt_bounds_eq_not_inRange01 v hnan, hr]
    · have hc₂ := cond_false_of_ok w₂ (hok₂ w₂ hsim)
      simp [hempty, hlen', hvs, hst, hsim, hc₂, hv,
        lt_bounds_eq_not_inRange01 v hnan, hr]
    · have hc₁ := cond_false_of_ok w₁ (hok₁ w₁ hst)
      simp [hempty, hlen', hvs, hst, hsim, hc₁, hv,
        lt_bounds_eq_not_inRange01 v hnan, hr]
    · have hc₁ := cond_false_of_ok w₁ (hok₁ w₁ hst)
      have hc₂ := cond_false_of_ok w₂ (hok₂ w₂ hsim)
      simp [hempty, hlen', hvs, hst, hsim, hc₁, hc₂, hv,
        lt_bounds_eq_not_inRange01 v hnan, hr]
  · intro hok₁ hok₂ hok₃
    unfold validate validateAfterStability validateAfterSimilarity
    rcases hst : s.stability with _ | w₁ <;>
      rcases hsim : s.similarity_boost with _ | w₂ <;>
      rcases hsty : s.style with _ | w₃
    · simp [hempty, hlen', hvs, hst, hsim, hsty]
    · simp [hempty, hlen', hvs, hst, hsim, hsty,
        cond_false_of_ok w₃ (hok₃ w₃ hsty)]
    · simp [hempty, hlen', hvs, hst, hsim, hsty,
        cond_false_of_ok w₂ (hok₂ w₂ hsim)]
    · simp [hempty, hlen', hvs, hst, hsim, hsty,
        cond_false_of_ok w₂ (hok₂ w₂ hsim),
        cond_false_of_ok w₃ (hok₃ w₃ hsty)]
    · simp [hempty, hlen', hvs, hst, hsim, hsty,
        cond_false_of_ok w₁ (hok₁ w₁ hst)]
    · simp [hempty, hlen', hvs, hst, hsim, hsty,
        cond_false_of_ok w₁ (hok₁ w₁ hst),
        cond_false_of_ok w₃ (hok₃ w₃ hsty)]
    · simp [hempty, hlen', hvs, hst, hsim, hsty,
        cond_false_of_ok w₁ (hok₁ w₁ hst),
        cond_false_of_ok w₂ (hok₂ w₂ hsim)]
    · simp [hempty, hlen', hvs, hst, hsim, hsty,
        cond_false_of_ok w₁ (hok₁ w₁ hst),
        cond_false_of_ok w₂ (hok₂ w₂ hsim),
        cond_false_of_ok w₃ (hok₃ w₃ hsty)]

/-- Witness for `C3_voice_settings_range`: stability `2.0` is rejected
with the field name and value. -/
theorem C3_voice_settings_range_witness :
    send_speech_request Env.trivial (.ok { status := 200, body := [] })
        (SpeechClient.new "key")
        { SpeechRequest.default with
          text := "hi",
          voice_settings := some
            { VoiceSettings.default with stability := some (.fin 2) } }
      = .error (.InvalidVoiceSettings "stability" (.fin 2)) :=
  (C3_voice_settings_range Env.trivial (.ok { status := 200, body := [] })
      (SpeechClient.new "key") _ _ rfl (by decide) (by decide)).1
    (.fin 2) rfl (by decide) (by decide)

/-- C4: once validation, serialization and URL construction succeed and
the transport delivers a response, a status in `200..=299` yields the raw
body tagged with the request's output format (`mp3_44100_128` when
unset); any other status yields `ApiError` with that status and either
the decoded error envelope's message or the lossy-UTF-8 body. -/
theorem C4_response_classification (env : Env) (client : SpeechClient)
    (request : SpeechRequest) (response : HttpResponse)
    (hv : validate client request = none)
    (henc : ∃ b,
      env.encodeJson (SpeechRequestJson.ofRequest request).toJson = .ok b)
    (hurl : env.urlParse (requestUrl client request) = .ok ()) :
    (200 ≤ response.status ∧ response.status < 300 →
      send_speech_request env (.ok response) client request
        = .ok { audio_data := response.body
                format := request.output_format.getD .Mp3_44100_128 }) ∧
    (¬(200 ≤ response.status ∧ response.status < 300) →
      send_speech_request env (.ok response) client request
        = .error (.ApiError response.status
            (match env.decodeApiError response.body with
             | some error_response => error_response.error.message
             | none => env.utf8Lossy response.body))) := by
  obtain ⟨b, henc⟩ := henc
  have hsend : send_speech_request env (.ok response) client request
      = classifyResponse env request response := by
    unfold send_speech_request
    rw [hv, henc, hurl]
  constructor
  · intro hst
    rw [hsend]
    unfold classifyResponse
    rw [if_pos hst]
    rfl
  · intro hst
    rw [hsend]
    unfold classifyResponse
    rw [if_neg hst]
    cases env.decodeApiError response.body <;> rfl

/-- Witness for `C4_response_classification`: a 200 response with body
`[1,2,3]` yields that audio with the default format, and a 500 response
(with the trivial decoder failing) yields `ApiError 500 ""`. -/
theorem C4_response_classification_witness :
    send_speech_request Env.trivial (.ok { status := 200, body := [1, 2, 3] })
        (SpeechClient.new "key") { SpeechRequest.default with text := "hi" }
      = .ok { audio_data := [1, 2, 3], format := .Mp3_44100_128 } ∧
    send_speech_request Env.trivial (.ok { status := 500, body := [] })
        (SpeechClient.new "key") { SpeechRequest.default with text := "hi" }
      = .error (.ApiError 500 "") := by
  constructor
  · exact (C4_response_classification Env.trivial (SpeechClient.new "key")
      { SpeechRequest.default with text := "hi" }
      { status := 200, body := [1, 2, 3] } (by decide) ⟨[], rfl⟩ rfl).1
      (by decide)
  · exact (C4_response_classification Env.trivial (SpeechClient.new "key")
      { SpeechRequest.default with text := "hi" }
      { status := 500, body := [] } (by decide) ⟨[], rfl⟩ rfl).2
      (by decide)

/-- Lookup walks past a head entry with a different key. -/
theorem lookup_cons_ne {β : Type} (q k : String) (j : β)
    (rest : List (String × β)) (h : (q == k) = false) :
    List.lookup q ((k, j) :: rest) = List.lookup q rest := by
  simp [List.lookup, h]

/-- Lookup walks past an optional field with a different key whether or
not it is present. -/
theorem lookup_optField_skip (q k : String) (o : Option Json)
    (rest : List (String × Json)) (h : (q == k) = false) :
    List.lookup q (optField k o ++ rest) = List.lookup q rest := by
  cases o <;> simp [optField, List.lookup, h]

/-- Lookup at a terminal optional field's own key returns exactly its
value. -/
theorem lookup_optField_last (k : String) (o : Option Json) :
    List.lookup k (optField k o) = o := by
  cases o <;> simp [optField, List.lookup]

/-- Lookup misses a terminal optional field with a different key. -/
theorem lookup_optField_ne_last (q k : String) (o : Option Json)
    (h : (q == k) = false) :
    List.lookup q (optField k o) = none := by
  cases o <;> simp [optField, List.lookup, h]

/-- Lookup at an optional field's own key returns exactly its value when
the key occurs nowhere later. -/
theorem lookup_optField_self (k : String) (o : Option Json)
    (rest : List (String × Json)) (hrest : List.lookup k rest = none) :
    List.lookup k (optField k o ++ rest) = o := by
  cases o <;> simp [optField, List.lookup, hrest]

/-- `noNullValues` distributes over append. -/
theorem noNullValues_append (a b : List (String × Json)) :
    noNullValues (a ++ b) = (noNullValues a && noNullValues b) := by
  induction a with
  | nil => rfl
  | cons kv rest ih => simp [noNullValues, ih, Bool.and_assoc]

/-- An optional field built from a non-null encoder contributes no null
value. -/
theorem noNullValues_optField {α : Type} (k : String) (f : α → Json)
    (o : Option α) (hf : ∀ a, (f a).isNull = false) :
    noNullValues (optField k (o.map f)) = true := by
  cases o <;> simp [optField, noNullValues, hf]

/-- The serialized voice-settings object never contains a null value. -/
theorem voiceSettings_fields_no_null (s : VoiceSettings) :
    noNullValues s.toJsonFields = true := by
  unfold VoiceSettings.toJsonFields
  simp only [noNullValues_append]
  rw [noNullValues_optField "stability" Json.num s.stability (fun _ => rfl),
    noNullValues_optField "similarity_boost" Json.num s.similarity_boost
      (fun _ => rfl),
    noNullValues_optField "style" Json.num s.style (fun _ => rfl),
    noNullValues_optField "use_speaker_boost" Json.bool s.use_speaker_boost
      (fun _ => rfl)]
  rfl

/-- C5: the wire JSON of every request has `text` always, the model
value under key `model_id`, every optional field exactly when it was set
(in particular its key is absent, not null, when unset), and no null
anywhere — top level or inside the voice-settings object. -/
theorem C5_wire_json (req : SpeechRequest) :
    (SpeechRequestJson.ofRequest req).toJsonFields.lookup "text"
        = some (.str req.text) ∧
    (SpeechRequestJson.ofRequest req).toJsonFields.lookup "model_id"
        = some (.str req.model.as_str) ∧
    (SpeechRequestJson.ofRequest req).toJsonFields.lookup "language_code"
        = req.language_code.map .str ∧
    (SpeechRequestJson.ofRequest req).toJsonFields.lookup "voice_settings"
        = req.voice_settings.map (fun s => .obj s.toJsonFields) ∧
    (SpeechRequestJson.ofRequest req).toJsonFields.lookup "seed"
        = req.seed.map .nat ∧
    (SpeechRequestJson.ofRequest req).toJsonFields.lookup "previous_text"
        = req.previous_text.map .str ∧
    (SpeechRequestJson.ofRequest req).toJsonFields.lookup "next_text"
        = req.next_text.map .str ∧
    (SpeechRequestJson.ofRequest req).toJsonFields.lookup
        "previous_request_ids"
        = req.previous_request_ids.map (fun ids => .arr (ids.map .str)) ∧
    (SpeechRequestJson.ofRequest req).toJsonFields.lookup "next_request_ids"
        = req.next_request_ids.map (fun ids => .arr (ids.map .str)) ∧
    (SpeechRequestJson.ofRequest req).toJsonFields.lookup
        "apply_text_normalization"
        = req.apply_text_normalization.map (fun m => .str m.wireName) ∧
    (SpeechRequestJson.ofRequest req).toJsonFields.lookup
        "apply_language_text_normalization"
        = req.apply_language_text_normalization.map .bool ∧
    noNullValues (SpeechRequestJson.ofRequest req).toJsonFields = true ∧
    (req.voice_settings.all
        fun s => noNullValues s.toJsonFields) = true := by
  refine ⟨?_, ?_, ?_, ?_, ?_, ?_, ?_, ?_, ?_, ?_, ?_, ?_, ?_⟩
  · simp [SpeechRequestJson.toJsonFields, SpeechRequestJson.ofRequest,
      List.lookup]
  · simp [SpeechRequestJson.toJsonFields, SpeechRequestJson.ofRequest,
      List.lookup]
  · simp [SpeechRequestJson.toJsonFields, SpeechRequestJson.ofRequest,
      lookup_cons_ne, lookup_optField_skip, lookup_optField_self,
      lookup_optField_last, lookup_optField_ne_last, List.lookup]
  · simp [SpeechRequestJson.toJsonFields, SpeechRequestJson.ofRequest,
      lookup_cons_ne, lookup_optField_skip, lookup_optField_self,
      lookup_optField_last, lookup_optField_ne_last, List.lookup]
  · simp [SpeechRequestJson.toJsonFields, SpeechRequestJson.ofRequest,
      lookup_cons_ne, lookup_optField_skip, lookup_optField_self,
      lookup_optField_last, lookup_optField_ne_last, List.lookup]
  · simp [SpeechRequestJson.toJsonFields, SpeechRequestJson.ofRequest,
      lookup_cons_ne, lookup_optField_skip, lookup_optField_self,
      lookup_optField_last, lookup_optField_ne_last, List.lookup]
  · simp [SpeechRequestJson.toJsonFields, SpeechRequestJson.ofRequest,
      lookup_cons_ne, lookup_optField_skip, lookup_optField_self,
      lookup_optField_last, lookup_optField_ne_last, List.lookup]
  · simp [SpeechRequestJson.toJsonFields, SpeechRequestJson.ofRequest,
      lookup_cons_ne, lookup_optField_skip, lookup_optField_self,
      lookup_optField_last, lookup_optField_ne_last, List.lookup]
  · simp [SpeechRequestJson.toJsonFields, SpeechRequestJson.ofRequest,
      lookup_cons_ne, lookup_optField_skip, lookup_optField_self,
      lookup_optField_last, lookup_optField_ne_last, List.lookup]
  · simp [SpeechRequestJson.toJsonFields, SpeechRequestJson.ofRequest,
      lookup_cons_ne, lookup_optField_skip, lookup_optField_self,
      lookup_optField_last, lookup_optField_ne_last, List.lookup]
  · simp [SpeechRequestJson.toJsonFields, SpeechRequestJson.ofRequest,
      lookup_cons_ne, lookup_optField_skip, lookup_optField_self,
      lookup_optField_last, lookup_optField_ne_last, List.lookup]
  · unfold SpeechRequestJson.toJsonFields SpeechRequestJson.ofRequest
    simp only [noNullValues, noNullValues_append, Json.isNull]
    rw [noNullValues_optField "language_code" Json.str req.language_code
        (fun _ => rfl),
      noNullValues_optField "voice_settings"
        (fun s => Json.obj s.toJsonFields) req.voice_settings (fun _ => rfl),
      noNullValues_optField "seed" Json.nat req.seed (fun _ => rfl),
      noNullValues_optField "previous_text" Json.str req.previous_text
        (fun _ => rfl),
      noNullValues_optField "next_text" Json.str req.next_text (fun _ => rfl),
      noNullValues_optField "previous_request_ids"
        (fun ids => Json.arr (ids.map Json.str)) req.previous_request_ids
        (fun _ => rfl),
      noNullValues_optField "next_request_ids"
        (fun ids => Json.arr (ids.map Json.str)) req.next_request_ids
        (fun _ => rfl),
      noNullValues_optField "apply_text_normalization"
        (fun m => Json.str m.wireName) req.apply_text_normalization
        (fun _ => rfl),
      noNullValues_optField "apply_language_text_normalization" Json.bool
        req.apply_language_text_normalization (fun _ => rfl)]
    rfl
  · cases hvs : req.voice_settings with
    | none => rfl
    | some s => exact voiceSettings_fields_no_null s

/-- C6: the target URL is the base URL, the fixed path
`/v1/text-to-speech/`, the voice's external identifier, and the output
format string as the `output_format` query parameter; for voice Rachel the
path segment is `21m00Tcm4TlvDq8ikWAM`, and with no output format set the
query value is `mp3_44100_128`. -/
theorem C6_url (client : SpeechClient) (request : SpeechRequest) :
    requestUrl client request
      = client.base_url ++ "/v1/text-to-speech/" ++ request.voice.as_voice_id
        ++ "?output_format="
        ++ (request.output_format.getD .Mp3_44100_128).as_str ∧
    (request.voice = .Rachel →
      requestUrl client request
        = client.base_url ++ "/v1/text-to-speech/" ++ "21m00Tcm4TlvDq8ikWAM"
          ++ "?output_format="
          ++ (request.output_format.getD .Mp3_44100_128).as_str) ∧
    (request.output_format = none →
      requestUrl client request
        = client.base_url ++ "/v1/text-to-speech/"
          ++ request.voice.as_voice_id ++ "?output_format="
          ++ "mp3_44100_128") := by
  refine ⟨rfl, ?_, ?_⟩
  · intro h
    rw [requestUrl, h]
    rfl
  · intro h
    rw [requestUrl, h]
    rfl

/-- Witness for `C6_url`: the default client and request (voice Rachel,
no output format) produce the fully concrete URL. -/
theorem C6_url_witness :
    requestUrl (SpeechClient.new "key") SpeechRequest.default
      = "https://api.elevenlabs.io/v1/text-to-speech/21m00Tcm4TlvDq8ikWAM?output_format=mp3_44100_128" ∧
    requestUrl (SpeechClient.new "key") SpeechRequest.default
      = "https://api.elevenlabs.io" ++ "/v1/text-to-speech/"
        ++ "21m00Tcm4TlvDq8ikWAM" ++ "?output_format=" ++ "mp3_44100_128" := by
  constructor
  · rw [(C6_url (SpeechClient.new "key") SpeechRequest.default).2.1 rfl]
    rfl
  · exact (C6_url (SpeechClient.new "key") SpeechRequest.default).2.2 rfl

/-- C7: each voice-settings sub-field setter rewrites `voice_settings` to
the current settings (or the default when absent) with only the targeted
sub-field replaced, and leaves every other request field and the client
untouched (the record update changes nothing else). -/
theorem C7_subfield_frame (b : SpeechRequestBuilder) (v : F32) (sb : Bool) :
    (b.stability v).request
      = { b.request with voice_settings := some (
          { b.request.voice_settings.getD VoiceSettings.default with
            stability := some v }) } ∧
    (b.similarity_boost v).request
      = { b.request with voice_settings := some (
          { b.request.voice_settings.getD VoiceSettings.default with
            similarity_boost := some v }) } ∧
    (b.style v).request
      = { b.request with voice_settings := some (
          { b.request.voice_settings.getD VoiceSettings.default with
            style := some v }) } ∧
    (b.use_speaker_boost sb).request
      = { b.request with voice_settings := some (
          { b.request.voice_settings.getD VoiceSettings.default with
            use_speaker_boost := some sb }) } ∧
    (b.stability v).client = b.client ∧
    (b.similarity_boost v).client = b.client ∧
    (b.style v).client = b.client ∧
    (b.use_speaker_boost sb).client = b.client :=
  ⟨rfl, rfl, rfl, rfl, rfl, rfl, rfl, rfl⟩

/-- C8: the setter `input` is the setter `text`, and `response_format` is
`output_format`, on every builder state and argument. -/
theorem C8_setter_aliases (b : SpeechRequestBuilder) (t : String)
    (f : AudioFormat) :
    b.input t = b.text t ∧ b.response_format f = b.output_format f :=
  ⟨rfl, rfl⟩

/-- C9: no execution, for any request, client configuration, external
collaborator behaviour, or transport outcome, ever produces `InvalidSeed`
or `DeserializationError`. -/
theorem C9_no_phantom_errors (env : Env)
    (t : Except HttpClientError HttpResponse) (client : SpeechClient)
    (request : SpeechRequest) :
    resultPhantom (send_speech_request env t client request) = false := by
  rcases send_shape env t client request with ⟨e, hv, hs⟩ | ⟨hv, hrest⟩
  · rcases validate_shape client request with
      h0 | h0 | ⟨h0, _⟩ | ⟨v, h0⟩ | ⟨v, h0⟩ | ⟨v, h0⟩ | h0
    · rw [h0] at hv
      cases hv
    · rw [h0] at hv
      cases hv
      rw [hs]
      rfl
    · rw [h0] at hv
      cases hv
      rw [hs]
      rfl
    · rw [h0] at hv
      cases hv
      rw [hs]
      rfl
    · rw [h0] at hv
      cases hv
      rw [hs]
      rfl
    · rw [h0] at hv
      cases hv
      rw [hs]
      rfl
    · rw [h0] at hv
      cases hv
      rw [hs]
      rfl
  · rcases hrest with ⟨m, hs⟩ | ⟨u, hs⟩ | ⟨response, ht, hs⟩ <;> rw [hs]
    · rfl
    · rfl
    · unfold classifyResponse
      split
      · rfl
      · cases env.decodeApiError response.body <;> rfl

/-- Inversion: a blamed field comes with a concrete offending value. -/
theorem blamesField_eq_true (o : Option TtsError) (g : String)
    (h : blamesField o g = true) :
    ∃ v, o = some (.InvalidVoiceSettings g v) := by
  match o with
  | none => exact absurd h (by simp [blamesField])
  | some (.InvalidVoiceSettings f v) =>
    have hf : f = g := by
      have := h
      simp [blamesField] at this
      exact this
    exact ⟨v, by rw [hf]⟩
  | some .MissingInput => exact absurd h (by simp [blamesField])
  | some (.InputTooLong n) => exact absurd h (by simp [blamesField])
  | some .MissingApiKey => exact absurd h (by simp [blamesField])
  | some (.ApiError st m) => exact absurd h (by simp [blamesField])
  | some (.HttpClient e) => exact absurd h (by simp [blamesField])
  | some (.SerializationError m) => exact absurd h (by simp [blamesField])
  | some (.DeserializationError m) => exact absurd h (by simp [blamesField])
  | some (.InvalidSeed n) => exact absurd h (by simp [blamesField])

/-- The API-key check never blames a voice-settings field. -/
theorem validateApiKey_blame (client : SpeechClient) (f : String) (v : F32) :
    validateApiKey client ≠ some (.InvalidVoiceSettings f v) := by
  unfold validateApiKey
  split <;> simp

/-- Blame soundness for the `style`-and-later checks. -/
theorem validateAfterSimilarity_blame (client : SpeechClient)
    (s : VoiceSettings) (f : String) (v : F32)
    (h : validateAfterSimilarity client s
      = some (.InvalidVoiceSettings f v)) :
    f = "style" ∧ s.style = some v ∧
      (v.lt MIN_VOICE_SETTING || MAX_VOICE_SETTING.lt v) = true := by
  unfold validateAfterSimilarity at h
  rcases hsty : s.style with _ | w <;> rw [hsty] at h
  · exact absurd h (validateApiKey_blame client f v)
  · replace h :
        (if (w.lt MIN_VOICE_SETTING || MAX_VOICE_SETTING.lt w) = true then
          some (TtsError.InvalidVoiceSettings "style" w)
        else validateApiKey client)
          = some (TtsError.InvalidVoiceSettings f v) := h
    split_ifs at h with hc
    · simp only [Option.some.injEq, TtsError.InvalidVoiceSettings.injEq] at h
      obtain ⟨hf, hv⟩ := h
      subst hf
      subst hv
      exact ⟨rfl, rfl, hc⟩
    · exact absurd h (validateApiKey_blame client f v)

/-- Blame soundness for the `similarity_boost`-and-later checks. -/
theorem validateAfterStability_blame (client : SpeechClient)
    (s : VoiceSettings) (f : String) (v : F32)
    (h : validateAfterStability client s
      = some (.InvalidVoiceSettings f v)) :
    ((f = "similarity_boost" ∧ s.similarity_boost = some v) ∨
      (f = "style" ∧ s.style = some v)) ∧
    (v.lt MIN_VOICE_SETTING || MAX_VOICE_SETTING.lt v) = true := by
  unfold validateAfterStability at h
  rcases hsim : s.similarity_boost with _ | w <;> rw [hsim] at h
  · obtain ⟨hf, hsty, hc⟩ := validateAfterSimilarity_blame client s f v h
    exact ⟨Or.inr ⟨hf, hsty⟩, hc⟩
  · replace h :
        (if (w.lt MIN_VOICE_SETTING || MAX_VOICE_SETTING.lt w) = true then
          some (TtsError.InvalidVoiceSettings "similarity_boost" w)
        else validateAfterSimilarity client s)
          = some (TtsError.InvalidVoiceSettings f v) := h
    split_ifs at h with hc
    · simp only [Option.some.injEq, TtsError.InvalidVoiceSettings.injEq] at h
      obtain ⟨hf, hv⟩ := h
      subst hf
      subst hv
      exact ⟨Or.inl ⟨rfl, rfl⟩, hc⟩
    · obtain ⟨hf, hsty, hc'⟩ := validateAfterSimilarity_blame client s f v h
      exact ⟨Or.inr ⟨hf, hsty⟩, hc'⟩

/-- Blame soundness for the whole validation: an `InvalidVoiceSettings`
error names a field that is actually present in the settings with the
blamed value, and that value trips the rejection condition. -/
theorem validate_blame_sound (client : SpeechClient)
    (request : SpeechRequest) (s : VoiceSettings) (f : String) (v : F32)
    (hvs : request.voice_settings = some s)
    (h : validate client request = some (.InvalidVoiceSettings f v)) :
    ((f = "stability" ∧ s.stability = some v) ∨
     (f = "similarity_boost" ∧ s.similarity_boost = some v) ∨
     (f = "style" ∧ s.style = some v)) ∧
    (v.lt MIN_VOICE_SETTING || MAX_VOICE_SETTING.lt v) = true := by
  unfold validate at h
  split_ifs at h with h1 h2
  · simp at h
  · simp at h
  · rw [hvs] at h
    replace h :
        (match s.stability with
          | some stability =>
            if (stability.lt MIN_VOICE_SETTING
                || MAX_VOICE_SETTING.lt stability) = true then
              some (TtsError.InvalidVoiceSettings "stability" stability)
            else validateAfterStability client s
          | none => validateAfterStability client s)
          = some (TtsError.InvalidVoiceSettings f v) := h
    rcases hst : s.stability with _ | w <;> rw [hst] at h
    · obtain ⟨hd, hc⟩ := validateAfterStability_blame client s f v h
      exact ⟨Or.inr hd, hc⟩
    · replace h :
          (if (w.lt MIN_VOICE_SETTING || MAX_VOICE_SETTING.lt w) = true then
            some (TtsError.InvalidVoiceSettings "stability" w)
          else validateAfterStability client s)
            = some (TtsError.InvalidVoiceSettings f v) := h
      split_ifs at h with hc
      · simp only [Option.some.injEq, TtsError.InvalidVoiceSettings.injEq] at h
        obtain ⟨hf, hv⟩ := h
        subst hf
        subst hv
        exact ⟨Or.inl ⟨rfl, rfl⟩, hc⟩
      · obtain ⟨hd, hc'⟩ := validateAfterStability_blame client s f v h
        exact ⟨Or.inr hd, hc'⟩

/-- C10: a voice-settings field set to NaN never triggers
`InvalidVoiceSettings` for that field (both IEEE comparisons are false on
NaN), and with every numeric field NaN the whole voice-settings block
passes, so validation reduces to the API-key check and the request
reaches serialization. -/
theorem C10_nan_passes (client : SpeechClient) (request : SpeechRequest)
    (s : VoiceSettings) (hvs : request.voice_settings = some s) :
    (s.stability = some .nan →
      blamesField (validate client request) "stability" = false) ∧
    (s.similarity_boost = some .nan →
      blamesField (validate client request) "similarity_boost" = false) ∧
    (s.style = some .nan →
      blamesField (validate client request) "style" = false) ∧
    (s.stability = some .nan → s.similarity_boost = some .nan →
      s.style = some .nan → request.text.isEmpty = false →
      request.text.utf8ByteSize ≤ MAX_INPUT_LENGTH →
      validate client request = validateApiKey client) := by
  have key : ∀ (g : String), s.stability = some .nan ∧ g = "stability" ∨
      s.similarity_boost = some .nan ∧ g = "similarity_boost" ∨
      s.style = some .nan ∧ g = "style" →
      blamesField (validate client request) g = false := by
    intro g hg
    cases hb : blamesField (validate client request) g
    · rfl
    · exfalso
      obtain ⟨v, hval⟩ := blamesField_eq_true _ _ hb
      obtain ⟨hd, hc⟩ := validate_blame_sound client request s g v hvs hval
      have hvnan : v = .nan := by
        rcases hg with ⟨hnan, hgeq⟩ | ⟨hnan, hgeq⟩ | ⟨hnan, hgeq⟩ <;>
          subst hgeq <;>
          rcases hd with ⟨hf, hfld⟩ | ⟨hf, hfld⟩ | ⟨hf, hfld⟩ <;>
          first
            | (rw [hnan] at hfld; injection hfld with hx; exact hx.symm)
            | (exact absurd hf (by decide))
      rw [hvnan] at hc
      exact absurd hc (by decide)
  refine ⟨?_, ?_, ?_, ?_⟩
  · intro h
    exact key "stability" (Or.inl ⟨h, rfl⟩)
  · intro h
    exact key "similarity_boost" (Or.inr (Or.inl ⟨h, rfl⟩))
  · intro h
    exact key "style" (Or.inr (Or.inr ⟨h, rfl⟩))
  · intro h1 h2 h3 hempty hlen
    have hlen' : ¬ MAX_INPUT_LENGTH < request.text.utf8ByteSize := by omega
    unfold validate validateAfterStability validateAfterSimilarity
    simp [hempty, hlen', hvs, h1, h2, h3, F32.lt, MIN_VOICE_SETTING,
      MAX_VOICE_SETTING]

/-- Witness for `C10_nan_passes`: with text `"hi"`, a non-empty key, and
all three numeric settings NaN, validation succeeds outright. -/
theorem C10_nan_passes_witness :
    blamesField
      (validate (SpeechClient.new "key")
        { SpeechRequest.default with
          text := "hi",
          voice_settings := some
            { stability := some .nan, similarity_boost := some .nan,
              style := some .nan, use_speaker_boost := none } })
      "stability" = false ∧
    validate (SpeechClient.new "key")
      { SpeechRequest.default with
        text := "hi",
        voice_settings := some
          { stability := some .nan, similarity_boost := some .nan,
            style := some .nan, use_speaker_boost := none } } = none := by
  constructor
  · exact (C10_nan_passes (SpeechClient.new "key") _ _ rfl).1 rfl
  · rw [(C10_nan_passes (SpeechClient.new "key") _ _ rfl).2.2.2 rfl rfl rfl
      (by decide) (by decide)]
    rfl
